import Mathlib

/-!
Verification of the kyma CLI core: the manifest document transformations of
the `install` command (`removeActionLabel`, `replaceDockerImageURL`,
`importCertificate`) and the GCP provisioning command
(`validateFlags`, `newCluster`, `newProvider`, `Run`).

The document transformations are checked against the generic document model
of the spec; the GCP command is a direct shallow embedding of
`cmd/kyma/provision/gcp/cmd.go`.  External collaborators (hydroform
provisioning, the file system, kubeconfig handling, the certifier) are
modelled as explicit environments whose outcomes are parameters, and the
step/status side effects are modelled as explicit event traces.
-/

set_option autoImplicit false

/-- Map a fallible function over a list, stopping at the first error.
This models a Go loop that returns on the first non-nil error. -/
def mapExcept {α β ε : Type} (f : α → Except ε β) : List α → Except ε (List β)
  | [] => .ok []
  | a :: as =>
    match f a with
    | .error e => .error e
    | .ok b =>
      match mapExcept f as with
      | .error e => .error e
      | .ok bs => .ok (b :: bs)

namespace Install

/-- A mapping key of a parsed manifest document.  YAML parsers may emit
string, integer or boolean keys (`map[interface{}]interface{}` in the Go
source), so keys are scalars rather than plain strings. -/
inductive Key where
  | str : String → Key
  | int : Int → Key
  | bool : Bool → Key
deriving DecidableEq, Repr

/-- One node of a parsed, schema-less manifest document tree: a Mapping
(association list from scalar keys to values, insertion order preserved),
a Sequence, or a Scalar (string, integer, boolean or null). -/
inductive Value where
  | str : String → Value
  | int : Int → Value
  | bool : Bool → Value
  | null : Value
  | mapping : List (Key × Value) → Value
  | sequence : List Value → Value

/-- A single manifest document: the entries of its root mapping
(`map[string]interface{}` in the Go source, keys written as scalar keys). -/
abbrev Document := List (Key × Value)

/-- First value stored under a key in a mapping (Go map read). -/
def lookupKey (k : Key) : List (Key × Value) → Option Value
  | [] => none
  | (k', v) :: rest => if k' = k then some v else lookupKey k rest

/-- Whether a mapping contains a key (Go `_, ok := m[k]`). -/
def containsKey (k : Key) : List (Key × Value) → Bool
  | [] => false
  | (k', _) :: rest => k' = k || containsKey k rest

/-- Store a value under a key in a mapping (Go map assignment): replace the
first entry with that key, or append a new entry when the key is absent. -/
def setKey (k : Key) (v : Value) : List (Key × Value) → List (Key × Value)
  | [] => [(k, v)]
  | (k', v') :: rest => if k' = k then (k, v) :: rest else (k', v') :: setKey k v rest

/-- Remove every entry stored under a key from a mapping (Go `delete(m, k)`;
a Go map holds at most one entry per key). -/
def removeKey (k : Key) : List (Key × Value) → List (Key × Value)
  | [] => []
  | (k', v') :: rest => if k' = k then removeKey k rest else (k', v') :: removeKey k rest

/-- Failure of a transformation pass caused by a document not matching the
shape the pass expects. -/
inductive StructuralError where
  | labelNotPresent
  | badShape
  | imageKeyMissing
  | containerNotAMapping
deriving DecidableEq, Repr

/-- Modelled from the spec: the LabelStripper implementation (the
`removeActionLabel` method of the install command) is not under the
repository sources, only its test is.  Per spec section 4.2, a document
whose root `kind` equals `"Installation"` must already contain
`metadata.labels` as a Mapping; if the `action` key is present it is
removed, and if it is absent a `StructuralError` ("expected label not
present") is reported with the document left unmodified.  Non-Installation
documents are left untouched. -/
def removeActionLabelDoc (doc : Document) : Except StructuralError Document :=
  match lookupKey (.str "kind") doc with
  | some (.str "Installation") =>
    match lookupKey (.str "metadata") doc with
    | some (.mapping meta) =>
      match lookupKey (.str "labels") meta with
      | some (.mapping labels) =>
        if containsKey (.str "action") labels then
          .ok (setKey (.str "metadata")
                (.mapping (setKey (.str "labels")
                  (.mapping (removeKey (.str "action") labels)) meta)) doc)
        else
          .error .labelNotPresent
      | _ => .error .badShape
    | _ => .error .badShape
  | _ => .ok doc

/-- Modelled from the spec: `removeActionLabel` over the whole document set.
The Go method mutates the documents in place and returns a single error, so
the model returns the (possibly transformed) documents next to the optional
error; on the first failing document the iteration stops and that document
and all later ones are returned unchanged. -/
def removeActionLabel : List Document → Option StructuralError × List Document
  | [] => (none, [])
  | d :: rest =>
    match removeActionLabelDoc d with
    | .error e => (some e, d :: rest)
    | .ok d' =>
      match removeActionLabel rest with
      | (e, rest') => (e, d' :: rest')

/-- Modelled from the spec: rewrite of a single `containers` entry.  Per
spec section 4.3 each entry must be a Mapping holding an `image` key; the
image value is replaced by the caller-supplied replacement string. -/
def replaceImageInContainer (repl : String) : Value → Except StructuralError Value
  | .mapping entries =>
    if containsKey (.str "image") entries then
      .ok (.mapping (setKey (.str "image") (.str repl) entries))
    else
      .error .imageKeyMissing
  | _ => .error .containerNotAMapping

/-- Modelled from the spec: the ImageRewriter implementation (the
`replaceDockerImageURL` method of the install command) is not under the
repository sources, only its test is.  Per spec section 4.3 it locates the
path `spec.template.spec.containers` in a document, requires it to be a
Sequence of Mappings each holding an `image` key, and replaces every
`image` value with the replacement string; any structural mismatch is a
`StructuralError`. -/
def replaceDockerImageURLDoc (repl : String) (doc : Document) : Except StructuralError Document :=
  match lookupKey (.str "spec") doc with
  | some (.mapping specMap) =>
    match lookupKey (.str "template") specMap with
    | some (.mapping tmpl) =>
      match lookupKey (.str "spec") tmpl with
      | some (.mapping podSpec) =>
        match lookupKey (.str "containers") podSpec with
        | some (.sequence cs) =>
          match mapExcept (replaceImageInContainer repl) cs with
          | .error e => .error e
          | .ok cs' =>
            .ok (setKey (.str "spec")
                  (.mapping (setKey (.str "template")
                    (.mapping (setKey (.str "spec")
                      (.mapping (setKey (.str "containers") (.sequence cs') podSpec))
                      tmpl))
                    specMap))
                  doc)
        | _ => .error .badShape
      | _ => .error .badShape
    | _ => .error .badShape
  | _ => .error .badShape

/-- Modelled from the spec: `replaceDockerImageURL` over the whole document
set, returning a new set; any structural mismatch aborts the whole batch
with an error (fail-fast over best-effort). -/
def replaceDockerImageURL (docs : List Document) (repl : String) :
    Except StructuralError (List Document) :=
  mapExcept (replaceDockerImageURLDoc repl) docs

/-- The certifier collaborator as mocked by the tests: `Crt` holds the
certificate text, and the empty string stands for "no certificate
available". -/
structure Certifier where
  Crt : String

/-- In-memory recorder state of a pipeline Step, as queried by the test
double: three append-only logs plus the successful/stopped flags. -/
structure StepState where
  statuses : List String
  infos : List String
  errors : List String
  successful : Bool
  stopped : Bool
deriving DecidableEq, Repr

/-- A freshly created (or reset) Step recorder. -/
def initialStep : StepState :=
  { statuses := [], infos := [], errors := [], successful := false, stopped := false }

/-- Modelled from the spec: the `importCertificate` method of the install
command is not under the repository sources, only its test is.  Per spec
section 4.5: when waiting was not requested (`NoWait` is true) the import
is not attempted at all, a single error-level entry with the manual
OS-specific instructions is logged on the step, and no error is returned;
when waiting was requested the certifier is consulted, an empty certificate
yields the retrieval error with the step untouched, and a non-empty
certificate is imported, recorded as a status entry, and the step is marked
successful.  The result is the returned error, the step state after the
call, and whether the certifier's retrieve operation was invoked. -/
def importCertificate (cert : Certifier) (noWait : Bool) (st : StepState) :
    Option String × StepState × Bool :=
  if noWait then
    (none,
     { st with errors := st.errors ++ ["Manual OS-specific instructions for certificate import"] },
     false)
  else
    if cert.Crt = "" then
      (some "Could not retrieve the certificate", st, true)
    else
      (none,
       { st with
          statuses := st.statuses ++ ["Kyma root certificate imported"],
          successful := true },
       true)

/-- The `Installation` document of the test fixture whose `metadata.labels`
contains the `action` label. -/
def installationDoc : Document :=
  [ (.str "apiVersion", .str "installer.kyma-project.io/v1alpha1"),
    (.str "kind", .str "Installation"),
    (.str "metadata", .mapping
      [ (.str "name", .str "kyma-installation"),
        (.str "labels", .mapping [ (.str "action", .str "install") ]) ]) ]

/-- The metadata mapping of `installationDoc`. -/
def installationMeta : List (Key × Value) :=
  [ (.str "name", .str "kyma-installation"),
    (.str "labels", .mapping [ (.str "action", .str "install") ]) ]

/-- The labels mapping of `installationDoc`. -/
def installationLabels : List (Key × Value) :=
  [ (.str "action", .str "install") ]

/-- The `Installation` document of the test fixture whose `metadata.labels`
is empty (the `action` label is absent). -/
def installationDocNoAction : Document :=
  [ (.str "apiVersion", .str "installer.kyma-project.io/v1alpha1"),
    (.str "kind", .str "Installation"),
    (.str "metadata", .mapping
      [ (.str "name", .str "kyma-installation"),
        (.str "labels", .mapping []) ]) ]

/-- The metadata mapping of `installationDocNoAction`. -/
def installationMetaNoAction : List (Key × Value) :=
  [ (.str "name", .str "kyma-installation"),
    (.str "labels", .mapping []) ]

/-- The `Deployment` document of the test fixture, with one container whose
image is the kyma-installer image. -/
def deploymentDoc : Document :=
  [ (.str "apiVersion", .str "installer.kyma-project.io/v1alpha1"),
    (.str "kind", .str "Deployment"),
    (.str "spec", .mapping
      [ (.str "template", .mapping
        [ (.str "spec", .mapping
          [ (.str "serviceAccountName", .str "kyma-installer"),
            (.str "containers", .sequence
              [ .mapping
                [ (.str "name", .str "kyma-installer-container"),
                  (.str "image", .str "eu.gcr.io/kyma-project/kyma-installer:63f27f76") ] ]) ]) ]) ]) ]

/-- The `spec` mapping of `deploymentDoc`. -/
def deploymentSpec : List (Key × Value) :=
  [ (.str "template", .mapping
    [ (.str "spec", .mapping
      [ (.str "serviceAccountName", .str "kyma-installer"),
        (.str "containers", .sequence
          [ .mapping
            [ (.str "name", .str "kyma-installer-container"),
              (.str "image", .str "eu.gcr.io/kyma-project/kyma-installer:63f27f76") ] ]) ]) ]) ]

/-- The `spec.template` mapping of `deploymentDoc`. -/
def deploymentTemplate : List (Key × Value) :=
  [ (.str "spec", .mapping
    [ (.str "serviceAccountName", .str "kyma-installer"),
      (.str "containers", .sequence
        [ .mapping
          [ (.str "name", .str "kyma-installer-container"),
            (.str "image", .str "eu.gcr.io/kyma-project/kyma-installer:63f27f76") ] ]) ]) ]

/-- The `spec.template.spec` mapping of `deploymentDoc`. -/
def deploymentPodSpec : List (Key × Value) :=
  [ (.str "serviceAccountName", .str "kyma-installer"),
    (.str "containers", .sequence
      [ .mapping
        [ (.str "name", .str "kyma-installer-container"),
          (.str "image", .str "eu.gcr.io/kyma-project/kyma-installer:63f27f76") ] ]) ]

/-- The single container mapping of `deploymentDoc`. -/
def deploymentContainer : List (Key × Value) :=
  [ (.str "name", .str "kyma-installer-container"),
    (.str "image", .str "eu.gcr.io/kyma-project/kyma-installer:63f27f76") ]

end Install

namespace Gcp

/-- The flag values of the `provision gcp` command (`Options` in the Go
source), already bound by cobra. -/
structure Options where
  Name : String
  Project : String
  CredentialsFile : String
  KubernetesVersion : String
  Location : String
  MachineType : String
  DiskSizeGB : Int
  NodeCount : Int
  Extra : List String
  Verbose : Bool
  KubeconfigPath : String

/-- The cluster configuration record handed to the provisioning
collaborator (`types.Cluster`). -/
structure Cluster where
  Name : String
  KubernetesVersion : String
  DiskSizeGB : Int
  NodeCount : Int
  Location : String
  MachineType : String
deriving DecidableEq, Repr

/-- The provider configuration record handed to the provisioning
collaborator (`types.Provider`); the provider type is the constant
`types.GCP` and the custom configurations are a string-keyed map, modelled
as an insertion-ordered association list. -/
structure Provider where
  providerType : String
  ProjectName : String
  CredentialsFilePath : String
  CustomConfigurations : List (String × String)
deriving DecidableEq, Repr

/-- Store a value under a string key (Go map assignment on
`CustomConfigurations`). -/
def setConfig (k v : String) : List (String × String) → List (String × String)
  | [] => [(k, v)]
  | (k', v') :: rest => if k' = k then (k, v) :: rest else (k', v') :: setConfig k v rest

/-- Go `strings.Split` specialised to the one-character separator `"="`,
on the character list of the string: splitting the empty list yields one
empty part, every separator character closes the current part and opens a
new one. -/
def splitEqChars : List Char → List (List Char)
  | [] => [[]]
  | c :: rest =>
    if c = '=' then
      [] :: splitEqChars rest
    else
      match splitEqChars rest with
      | [] => [[c]]
      | h :: t => (c :: h) :: t

/-- Go `strings.Split(e, "=")`. -/
def splitEq (s : String) : List String :=
  (splitEqChars s.data).map fun l => ⟨l⟩

/-- The error message produced for a malformed extra configuration pair. -/
def wrongFormatMsg (e : String) : String :=
  "Wrong format for extra configuration " ++ e ++ ". Please provide NAME=VALUE pairs."

/-- The loop of `newProvider` over the extra `NAME=VALUE` pairs: each pair
is split on `"="`; a pair not yielding exactly two parts stops the loop
with an error, a well-formed pair is stored in the provider's custom
configurations.  The partially updated provider is returned next to the
optional error, as in the Go source. -/
def applyExtras (p : Provider) : List String → Provider × Option String
  | [] => (p, none)
  | e :: rest =>
    match splitEq e with
    | [n, v] =>
      applyExtras { p with CustomConfigurations := setConfig n v p.CustomConfigurations } rest
    | _ => (p, some (wrongFormatMsg e))

/-- `newCluster` of the GCP command: builds the cluster record from the
flag values. -/
def newCluster (o : Options) : Cluster :=
  { Name := o.Name,
    KubernetesVersion := o.KubernetesVersion,
    DiskSizeGB := o.DiskSizeGB,
    NodeCount := o.NodeCount,
    Location := o.Location,
    MachineType := o.MachineType }

/-- `newProvider` of the GCP command: builds the provider record from the
flag values, then folds the extra `NAME=VALUE` pairs into its custom
configurations, stopping at the first malformed pair. -/
def newProvider (o : Options) : Provider × Option String :=
  applyExtras
    { providerType := "GCP",
      ProjectName := o.Project,
      CredentialsFilePath := o.CredentialsFile,
      CustomConfigurations := [] }
    o.Extra

/-- `validateFlags` of the GCP command: the messages for all missing
mandatory flags are accumulated into one string builder, and a single
error holding the whole message is returned when anything is missing. -/
def validateFlags (name project credentials : String) : Option String :=
  let msg :=
    (if name = "" then "\nRequired flag `name` has not been set." else "")
    ++ (if project = "" then "\nRequired flag `project` has not been set." else "")
    ++ (if credentials = "" then "\nRequired flag `credentials` has not been set." else "")
  if msg.length ≠ 0 then some msg else none

/-- Outcomes of the external collaborators called by `Run`:
`hf.Provision`, `files.SaveClusterState`, `hf.Credentials` and
`kube.AppendConfig`.  Errors are their messages; `none` means success. -/
structure RunEnv where
  provision : Cluster → Provider → Except String Cluster
  saveClusterState : Cluster → Provider → Option String
  credentials : Cluster → Provider → Except String String
  appendConfig : String → String → Option String

/-- One observable step event of a `Run` execution: a step being created
with its description, or the current step being marked. -/
inductive StepEvent where
  | newStep : String → StepEvent
  | success : StepEvent
  | failure : StepEvent
deriving DecidableEq, Repr

/-- Which external collaborator calls a `Run` execution performed, in
order. -/
inductive ExtCall where
  | provision
  | saveState
  | credentials
  | appendConfig
deriving DecidableEq, Repr

/-- `Run` of the GCP command: validate the flags, build the cluster and
provider records, then provision the cluster, save the cluster state, and
fetch and merge the kubeconfig, each wrapped in a step and aborting the
pipeline on the first error.  The result is the returned error (if any),
the step events, and the external collaborator calls that were made. -/
def Run (o : Options) (env : RunEnv) : Option String × List StepEvent × List ExtCall :=
  match validateFlags o.Name o.Project o.CredentialsFile with
  | some err => (some err, [], [])
  | none =>
    let cluster := newCluster o
    match newProvider o with
    | (_, some err) => (some err, [], [])
    | (provider, none) =>
      let ev0 : List StepEvent := [.newStep "Provisioning GCP cluster"]
      match env.provision cluster provider with
      | .error err => (some err, ev0 ++ [.failure], [.provision])
      | .ok cluster' =>
        let ev1 := ev0 ++ [.success, .newStep "Saving cluster state"]
        match env.saveClusterState cluster' provider with
        | some err => (some err, ev1 ++ [.failure], [.provision, .saveState])
        | none =>
          let ev2 := ev1 ++ [.success, .newStep "Importing kubeconfig"]
          match env.credentials cluster' provider with
          | .error err =>
            (some err, ev2 ++ [.failure], [.provision, .saveState, .credentials])
          | .ok kubeconfig =>
            match env.appendConfig kubeconfig o.KubeconfigPath with
            | some err =>
              (some err, ev2 ++ [.failure],
               [.provision, .saveState, .credentials, .appendConfig])
            | none =>
              (none, ev2 ++ [.success],
               [.provision, .saveState, .credentials, .appendConfig])

/-- A fully specified options record with all mandatory flags set and the
documented defaults for the rest. -/
def validOpts : Options :=
  { Name := "myCluster",
    Project := "myProject",
    CredentialsFile := "gcp-key.json",
    KubernetesVersion := "1.14",
    Location := "europe-west3-a",
    MachineType := "n1-standard-4",
    DiskSizeGB := 30,
    NodeCount := 3,
    Extra := [],
    Verbose := false,
    KubeconfigPath := "/home/user/.kube/config" }

/-- `validOpts` with the given extra configuration pairs. -/
def optsWithExtra (ex : List String) : Options :=
  { validOpts with Extra := ex }

/-- An environment in which the provisioning collaborator fails with the
message `"boom"` and every later collaborator would succeed. -/
def envProvisionFails : RunEnv :=
  { provision := fun _ _ => .error "boom",
    saveClusterState := fun _ _ => none,
    credentials := fun _ _ => .ok "kubeconfig-content",
    appendConfig := fun _ _ => none }

/-- An environment in which every collaborator succeeds. -/
def envAllOk : RunEnv :=
  { provision := fun c _ => .ok c,
    saveClusterState := fun _ _ => none,
    credentials := fun _ _ => .ok "kubeconfig-content",
    appendConfig := fun _ _ => none }

/-- The custom configurations produced by folding a list of well-formed
extra pairs into an existing configuration map, used to describe the state
of the provider when `applyExtras` stops at a malformed pair. -/
def applyWellFormed (cfg : List (String × String)) : List String → List (String × String)
  | [] => cfg
  | x :: xs =>
    match splitEq x with
    | [n, v] => applyWellFormed (setConfig n v cfg) xs
    | _ => cfg

/-- A substring relation on strings: the needle occurs contiguously in the
haystack. -/
def occursIn (needle hay : String) : Prop :=
  needle.data <:+: hay.data

instance (needle hay : String) : Decidable (occursIn needle hay) :=
  inferInstanceAs (Decidable (needle.data <:+: hay.data))

end Gcp

namespace Install

theorem lookupKey_setKey_self (k : Key) (v : Value) (m : List (Key × Value)) :
    lookupKey k (setKey k v m) = some v := by
  induction m with
  | nil => simp [setKey, lookupKey]
  | cons p rest ih =>
    obtain ⟨k', v'⟩ := p
    by_cases h : k' = k
    · simp [setKey, h, lookupKey]
    · simp [setKey, h, lookupKey, ih]

theorem lookupKey_setKey_other (k k' : Key) (v : Value) (m : List (Key × Value))
    (h : k' ≠ k) : lookupKey k' (setKey k v m) = lookupKey k' m := by
  induction m with
  | nil => simp [setKey, lookupKey, Ne.symm h]
  | cons p rest ih =>
    obtain ⟨k₀, v₀⟩ := p
    by_cases hk : k₀ = k
    · subst hk
      simp [setKey, lookupKey, Ne.symm h]
    · simp [setKey, hk, lookupKey, ih]

theorem lookupKey_removeKey_self (k : Key) (m : List (Key × Value)) :
    lookupKey k (removeKey k m) = none := by
  induction m with
  | nil => simp [removeKey, lookupKey]
  | cons p rest ih =>
    obtain ⟨k', v'⟩ := p
    by_cases h : k' = k
    · simp [removeKey, h, ih]
    · simp [removeKey, h, lookupKey, ih]

theorem lookupKey_removeKey_other (k k' : Key) (m : List (Key × Value))
    (h : k' ≠ k) : lookupKey k' (removeKey k m) = lookupKey k' m := by
  induction m with
  | nil => simp [removeKey]
  | cons p rest ih =>
    obtain ⟨k₀, v₀⟩ := p
    by_cases hk : k₀ = k
    · subst hk
      simp [removeKey, lookupKey, Ne.symm h, ih]
    · simp [removeKey, hk, lookupKey, ih]

theorem containsKey_setKey_self (k : Key) (v : Value) (m : List (Key × Value)) :
    containsKey k (setKey k v m) = true := by
  induction m with
  | nil => simp [setKey, containsKey]
  | cons p rest ih =>
    obtain ⟨k', v'⟩ := p
    by_cases h : k' = k
    · simp [setKey, h, containsKey]
    · simp [setKey, h, containsKey, ih]

theorem containsKey_of_lookupKey (k : Key) (v : Value) (m : List (Key × Value))
    (h : lookupKey k m = some v) : containsKey k m = true := by
  induction m with
  | nil => simp [lookupKey] at h
  | cons p rest ih =>
    obtain ⟨k', v'⟩ := p
    by_cases hk : k' = k
    · simp [containsKey, hk]
    · rw [lookupKey, if_neg hk] at h
      simp [containsKey, hk, ih h]

theorem setKey_setKey_same (k : Key) (v v' : Value) (m : List (Key × Value)) :
    setKey k v (setKey k v' m) = setKey k v m := by
  induction m with
  | nil => simp [setKey]
  | cons p rest ih =>
    obtain ⟨k₀, v₀⟩ := p
    by_cases h : k₀ = k
    · simp [setKey, h]
    · simp [setKey, h, ih]

/-- C1: for every `Installation` document whose `metadata.labels` mapping
contains the key `"action"`, `removeActionLabel` returns no error and
yields a document identical to the input except that `"action"` is absent
from `metadata.labels`; every other entry of the document, of its metadata
and of its labels is unchanged. -/
theorem removeActionLabel_action_present
    (doc : Document) (meta labels : List (Key × Value))
    (hkind : lookupKey (.str "kind") doc = some (.str "Installation"))
    (hmeta : lookupKey (.str "metadata") doc = some (.mapping meta))
    (hlabels : lookupKey (.str "labels") meta = some (.mapping labels))
    (haction : containsKey (.str "action") labels = true) :
    ∃ doc' meta' labels',
      removeActionLabel [doc] = (none, [doc']) ∧
      (∀ k, k ≠ Key.str "metadata" → lookupKey k doc' = lookupKey k doc) ∧
      lookupKey (.str "metadata") doc' = some (.mapping meta') ∧
      (∀ k, k ≠ Key.str "labels" → lookupKey k meta' = lookupKey k meta) ∧
      lookupKey (.str "labels") meta' = some (.mapping labels') ∧
      lookupKey (.str "action") labels' = none ∧
      (∀ k, k ≠ Key.str "action" → lookupKey k labels' = lookupKey k labels) := by
  refine ⟨setKey (.str "metadata")
            (.mapping (setKey (.str "labels")
              (.mapping (removeKey (.str "action") labels)) meta)) doc,
          setKey (.str "labels") (.mapping (removeKey (.str "action") labels)) meta,
          removeKey (.str "action") labels,
          ?_, ?_, ?_, ?_, ?_, ?_, ?_⟩
  · simp [removeActionLabel, removeActionLabelDoc, hkind, hmeta, hlabels, haction]
  · exact fun k hk => lookupKey_setKey_other _ k _ doc hk
  · exact lookupKey_setKey_self _ _ doc
  · exact fun k hk => lookupKey_setKey_other _ k _ meta hk
  · exact lookupKey_setKey_self _ _ meta
  · exact lookupKey_removeKey_self _ labels
  · exact fun k hk => lookupKey_removeKey_other _ k labels hk

/-- Witness for C1 at the test fixture document. -/
theorem removeActionLabel_action_present_witness :
    lookupKey (.str "kind") installationDoc = some (.str "Installation") ∧
    lookupKey (.str "metadata") installationDoc = some (.mapping installationMeta) ∧
    lookupKey (.str "labels") installationMeta = some (.mapping installationLabels) ∧
    containsKey (.str "action") installationLabels = true ∧
    (∃ doc' meta' labels',
      removeActionLabel [installationDoc] = (none, [doc']) ∧
      (∀ k, k ≠ Key.str "metadata" → lookupKey k doc' = lookupKey k installationDoc) ∧
      lookupKey (.str "metadata") doc' = some (.mapping meta') ∧
      (∀ k, k ≠ Key.str "labels" → lookupKey k meta' = lookupKey k installationMeta) ∧
      lookupKey (.str "labels") meta' = some (.mapping labels') ∧
      lookupKey (.str "action") labels' = none ∧
      (∀ k, k ≠ Key.str "action" → lookupKey k labels' = lookupKey k installationLabels)) :=
  ⟨rfl, rfl, rfl, rfl,
   removeActionLabel_action_present installationDoc installationMeta installationLabels
     rfl rfl rfl rfl⟩

/-- C2: for every `Installation` document whose `metadata.labels` mapping
does not contain the key `"action"`, `removeActionLabel` reports a
`StructuralError` and the document is returned unmodified. -/
theorem removeActionLabel_action_absent
    (doc : Document) (meta labels : List (Key × Value))
    (hkind : lookupKey (.str "kind") doc = some (.str "Installation"))
    (hmeta : lookupKey (.str "metadata") doc = some (.mapping meta))
    (hlabels : lookupKey (.str "labels") meta = some (.mapping labels))
    (haction : containsKey (.str "action") labels = false) :
    ∃ e : StructuralError, removeActionLabel [doc] = (some e, [doc]) := by
  refine ⟨.labelNotPresent, ?_⟩
  simp [removeActionLabel, removeActionLabelDoc, hkind, hmeta, hlabels, haction]

/-- Witness for C2 at the test fixture document whose labels mapping is
empty. -/
theorem removeActionLabel_action_absent_witness :
    lookupKey (.str "kind") installationDocNoAction = some (.str "Installation") ∧
    lookupKey (.str "metadata") installationDocNoAction
      = some (.mapping installationMetaNoAction) ∧
    lookupKey (.str "labels") installationMetaNoAction = some (.mapping []) ∧
    containsKey (.str "action") ([] : List (Key × Value)) = false ∧
    (∃ e : StructuralError,
      removeActionLabel [installationDocNoAction] = (some e, [installationDocNoAction])) :=
  ⟨rfl, rfl, rfl, rfl,
   removeActionLabel_action_absent installationDocNoAction installationMetaNoAction []
     rfl rfl rfl rfl⟩

/-- C3: for a `Deployment` document holding `spec.template.spec.containers`
as a Sequence with one container mapping whose `image` is the
kyma-installer image, `replaceDockerImageURL` with replacement
`"testImage!"` returns no error and a document set identical to the input
except that the container's `image` entry equals `"testImage!"`; every
other entry at every level is unchanged. -/
theorem replaceDockerImageURL_single_deployment
    (doc : Document) (specMap tmpl podSpec cEntries : List (Key × Value))
    (hspec : lookupKey (.str "spec") doc = some (.mapping specMap))
    (htmpl : lookupKey (.str "template") specMap = some (.mapping tmpl))
    (hpod : lookupKey (.str "spec") tmpl = some (.mapping podSpec))
    (hcont : lookupKey (.str "containers") podSpec = some (.sequence [.mapping cEntries]))
    (himg : lookupKey (.str "image") cEntries
      = some (.str "eu.gcr.io/kyma-project/kyma-installer:63f27f76")) :
    ∃ doc' specMap' tmpl' podSpec' cEntries',
      replaceDockerImageURL [doc] "testImage!" = .ok [doc'] ∧
      (∀ k, k ≠ Key.str "spec" → lookupKey k doc' = lookupKey k doc) ∧
      lookupKey (.str "spec") doc' = some (.mapping specMap') ∧
      (∀ k, k ≠ Key.str "template" → lookupKey k specMap' = lookupKey k specMap) ∧
      lookupKey (.str "template") specMap' = some (.mapping tmpl') ∧
      (∀ k, k ≠ Key.str "spec" → lookupKey k tmpl' = lookupKey k tmpl) ∧
      lookupKey (.str "spec") tmpl' = some (.mapping podSpec') ∧
      (∀ k, k ≠ Key.str "containers" → lookupKey k podSpec' = lookupKey k podSpec) ∧
      lookupKey (.str "containers") podSpec' = some (.sequence [.mapping cEntries']) ∧
      (∀ k, k ≠ Key.str "image" → lookupKey k cEntries' = lookupKey k cEntries) ∧
      lookupKey (.str "image") cEntries' = some (.str "testImage!") := by
  have hc : containsKey (.str "image") cEntries = true :=
    containsKey_of_lookupKey _ _ _ himg
  refine ⟨setKey (.str "spec")
            (.mapping (setKey (.str "template")
              (.mapping (setKey (.str "spec")
                (.mapping (setKey (.str "containers")
                  (.sequence [.mapping (setKey (.str "image") (.str "testImage!") cEntries)])
                  podSpec)) tmpl)) specMap)) doc,
          setKey (.str "template")
            (.mapping (setKey (.str "spec")
              (.mapping (setKey (.str "containers")
                (.sequence [.mapping (setKey (.str "image") (.str "testImage!") cEntries)])
                podSpec)) tmpl)) specMap,
          setKey (.str "spec")
            (.mapping (setKey (.str "containers")
              (.sequence [.mapping (setKey (.str "image") (.str "testImage!") cEntries)])
              podSpec)) tmpl,
          setKey (.str "containers")
            (.sequence [.mapping (setKey (.str "image") (.str "testImage!") cEntries)])
            podSpec,
          setKey (.str "image") (.str "testImage!") cEntries,
          ?_, ?_, ?_, ?_, ?_, ?_, ?_, ?_, ?_, ?_, ?_⟩
  · simp [replaceDockerImageURL, mapExcept, replaceDockerImageURLDoc,
          replaceImageInContainer, hspec, htmpl, hpod, hcont, hc]
  · exact fun k hk => lookupKey_setKey_other _ k _ doc hk
  · exact lookupKey_setKey_self _ _ doc
  · exact fun k hk => lookupKey_setKey_other _ k _ specMap hk
  · exact lookupKey_setKey_self _ _ specMap
  · exact fun k hk => lookupKey_setKey_other _ k _ tmpl hk
  · exact lookupKey_setKey_self _ _ tmpl
  · exact fun k hk => lookupKey_setKey_other _ k _ podSpec hk
  · exact lookupKey_setKey_self _ _ podSpec
  · exact fun k hk => lookupKey_setKey_other _ k _ cEntries hk
  · exact lookupKey_setKey_self _ _ cEntries

/-- Witness for C3 at the test fixture `Deployment` document. -/
theorem replaceDockerImageURL_single_deployment_witness :
    lookupKey (.str "spec") deploymentDoc = some (.mapping deploymentSpec) ∧
    lookupKey (.str "template") deploymentSpec = some (.mapping deploymentTemplate) ∧
    lookupKey (.str "spec") deploymentTemplate = some (.mapping deploymentPodSpec) ∧
    lookupKey (.str "containers") deploymentPodSpec
      = some (.sequence [.mapping deploymentContainer]) ∧
    lookupKey (.str "image") deploymentContainer
      = some (.str "eu.gcr.io/kyma-project/kyma-installer:63f27f76") ∧
    (∃ doc' specMap' tmpl' podSpec' cEntries',
      replaceDockerImageURL [deploymentDoc] "testImage!" = .ok [doc'] ∧
      (∀ k, k ≠ Key.str "spec" → lookupKey k doc' = lookupKey k deploymentDoc) ∧
      lookupKey (.str "spec") doc' = some (.mapping specMap') ∧
      (∀ k, k ≠ Key.str "template" → lookupKey k specMap' = lookupKey k deploymentSpec) ∧
      lookupKey (.str "template") specMap' = some (.mapping tmpl') ∧
      (∀ k, k ≠ Key.str "spec" → lookupKey k tmpl' = lookupKey k deploymentTemplate) ∧
      lookupKey (.str "spec") tmpl' = some (.mapping podSpec') ∧
      (∀ k, k ≠ Key.str "containers" → lookupKey k podSpec' = lookupKey k deploymentPodSpec) ∧
      lookupKey (.str "containers") podSpec' = some (.sequence [.mapping cEntries']) ∧
      (∀ k, k ≠ Key.str "image" → lookupKey k cEntries' = lookupKey k deploymentContainer) ∧
      lookupKey (.str "image") cEntries' = some (.str "testImage!")) :=
  ⟨rfl, rfl, rfl, rfl, rfl,
   replaceDockerImageURL_single_deployment deploymentDoc deploymentSpec deploymentTemplate
     deploymentPodSpec deploymentContainer rfl rfl rfl rfl rfl⟩

theorem mapExcept_idem {α ε : Type} (f : α → Except ε α)
    (hf : ∀ a b, f a = .ok b → f b = .ok b) :
    ∀ (as bs : List α), mapExcept f as = .ok bs → mapExcept f bs = .ok bs := by
  intro as
  induction as with
  | nil =>
    intro bs h
    simp only [mapExcept] at h
    cases h
    rfl
  | cons a rest ih =>
    intro bs h
    simp only [mapExcept] at h
    cases ha : f a with
    | error e => rw [ha] at h; cases h
    | ok b =>
      rw [ha] at h
      cases hrest : mapExcept f rest with
      | error e => rw [hrest] at h; cases h
      | ok bs₀ =>
        rw [hrest] at h
        cases h
        simp only [mapExcept, hf a b ha, ih bs₀ hrest]

theorem replaceImageInContainer_idem (repl : String) (c c' : Value)
    (h : replaceImageInContainer repl c = .ok c') :
    replaceImageInContainer repl c' = .ok c' := by
  cases c with
  | mapping entries =>
    by_cases hc : containsKey (.str "image") entries = true
    · simp only [replaceImageInContainer, hc, if_true] at h
      cases h
      simp [replaceImageInContainer, containsKey_setKey_self, setKey_setKey_same]
    · simp [replaceImageInContainer, hc] at h
  | str s => simp [replaceImageInContainer] at h
  | int n => simp [replaceImageInContainer] at h
  | bool b => simp [replaceImageInContainer] at h
  | null => simp [replaceImageInContainer] at h
  | sequence items => simp [replaceImageInContainer] at h

theorem replaceDockerImageURLDoc_idem (repl : String) (doc doc' : Document)
    (h : replaceDockerImageURLDoc repl doc = .ok doc') :
    replaceDockerImageURLDoc repl doc' = .ok doc' := by
  unfold replaceDockerImageURLDoc at h
  split at h <;> try (cases h)
  next specMap hspec =>
  split at h <;> try (cases h)
  next tmpl htmpl =>
  split at h <;> try (cases h)
  next podSpec hpod =>
  split at h <;> try (cases h)
  next cs hcont =>
  split at h <;> try (cases h)
  next cs' hcs =>
  unfold replaceDockerImageURLDoc
  simp only [lookupKey_setKey_self, setKey_setKey_same,
    mapExcept_idem _ (replaceImageInContainer_idem repl) cs cs' hcs]

/-- C9: `replaceDockerImageURL` is idempotent: for every document set and
replacement string, applying the rewrite twice with the same replacement
value (the second application consuming the first one's successful output)
yields the same result as applying it once. -/
theorem replaceDockerImageURL_idempotent (docs : List Document) (repl : String) :
    (replaceDockerImageURL docs repl).bind (fun ds => replaceDockerImageURL ds repl)
      = replaceDockerImageURL docs repl := by
  cases hm : replaceDockerImageURL docs repl with
  | error e => rfl
  | ok ds =>
    show replaceDockerImageURL ds repl = .ok ds
    exact mapExcept_idem _ (replaceDockerImageURLDoc_idem repl) docs ds hm

/-- C4: when `importCertificate` is called without waiting (`NoWait` true,
i.e. `wait=false`), the certifier's retrieve operation is never invoked,
no error is returned, the step is neither successful nor stopped, its
status and info logs stay empty, and its error log holds exactly the one
manual OS-specific instructions entry — for every certifier. -/
theorem importCertificate_no_wait (cert : Certifier) :
    (importCertificate cert true initialStep).1 = none ∧
    (importCertificate cert true initialStep).2.2 = false ∧
    (importCertificate cert true initialStep).2.1.successful = false ∧
    (importCertificate cert true initialStep).2.1.stopped = false ∧
    (importCertificate cert true initialStep).2.1.statuses = [] ∧
    (importCertificate cert true initialStep).2.1.infos = [] ∧
    (importCertificate cert true initialStep).2.1.errors
      = ["Manual OS-specific instructions for certificate import"] :=
  ⟨rfl, rfl, rfl, rfl, rfl, rfl, rfl⟩

end Install

namespace Gcp

set_option maxRecDepth 10000 in
/-- C5: when the name, project and credentials inputs are all empty,
`validateFlags` returns exactly one error whose message mentions all three
missing required flags, and when all three are non-empty it returns no
error. -/
theorem validateFlags_accumulates_all :
    (∃ msg, validateFlags "" "" "" = some msg ∧
      occursIn "name" msg ∧ occursIn "project" msg ∧ occursIn "credentials" msg) ∧
    ∀ name project credentials, name ≠ "" → project ≠ "" → credentials ≠ "" →
      validateFlags name project credentials = none := by
  constructor
  · refine ⟨"\nRequired flag `name` has not been set.\nRequired flag `project` has not been set.\nRequired flag `credentials` has not been set.", ?_, ?_, ?_, ?_⟩
    · decide
    · decide
    · decide
    · decide
  · intro name project credentials hn hp hc
    simp [validateFlags, hn, hp, hc]

/-- Witness for C5 at concrete non-empty flag values. -/
theorem validateFlags_accumulates_all_witness :
    ("x" ≠ "" ∧ "y" ≠ "" ∧ "z" ≠ "") ∧ validateFlags "x" "y" "z" = none :=
  ⟨⟨by decide, by decide, by decide⟩,
   validateFlags_accumulates_all.2 "x" "y" "z" (by decide) (by decide) (by decide)⟩

/-- C6: for every execution of `Run` that reaches the provisioning step
(flags validate and the provider builds), if the provisioning collaborator
fails then `Run` returns that error, none of the later collaborators
(state save, credential fetch, kubeconfig merge) is invoked, and no step
other than the provisioning step is ever created. -/
theorem Run_provision_fail_fast (o : Options) (env : RunEnv) (prov : Provider) (e : String)
    (hv : validateFlags o.Name o.Project o.CredentialsFile = none)
    (hnp : newProvider o = (prov, none))
    (hprov : env.provision (newCluster o) prov = .error e) :
    (Run o env).1 = some e ∧
    ExtCall.saveState ∉ (Run o env).2.2 ∧
    ExtCall.credentials ∉ (Run o env).2.2 ∧
    ExtCall.appendConfig ∉ (Run o env).2.2 ∧
    ∀ d, StepEvent.newStep d ∈ (Run o env).2.1 → d = "Provisioning GCP cluster" := by
  have hrun : Run o env
      = (some e, [.newStep "Provisioning GCP cluster", .failure], [.provision]) := by
    simp [Run, hv, hnp, hprov]
  rw [hrun]
  refine ⟨rfl, by simp, by simp, by simp, ?_⟩
  intro d hd
  simp only [List.mem_cons, List.not_mem_nil, or_false] at hd
  rcases hd with h | h
  · exact StepEvent.newStep.inj h
  · simp at h

/-- Witness for C6 at the valid options and the environment whose
provisioner fails with `"boom"`. -/
theorem Run_provision_fail_fast_witness :
    validateFlags validOpts.Name validOpts.Project validOpts.CredentialsFile = none ∧
    newProvider validOpts = ((newProvider validOpts).1, none) ∧
    envProvisionFails.provision (newCluster validOpts) (newProvider validOpts).1
      = .error "boom" ∧
    ((Run validOpts envProvisionFails).1 = some "boom" ∧
     ExtCall.saveState ∉ (Run validOpts envProvisionFails).2.2 ∧
     ExtCall.credentials ∉ (Run validOpts envProvisionFails).2.2 ∧
     ExtCall.appendConfig ∉ (Run validOpts envProvisionFails).2.2 ∧
     ∀ d, StepEvent.newStep d ∈ (Run validOpts envProvisionFails).2.1 →
       d = "Provisioning GCP cluster") :=
  ⟨rfl, rfl, rfl,
   Run_provision_fail_fast validOpts envProvisionFails (newProvider validOpts).1 "boom"
     rfl rfl rfl⟩

/-- C7 counterexample: with the extra pairs `["A=B", "C"]` the second pair
is malformed, so `newProvider` returns an error, yet the well-formed pair
`A=B` has been applied to the returned provider's custom configurations —
the claim that no well-formed pair is applied when an error is returned is
false on the code. -/
theorem newProvider_partial_application_counterexample :
    (newProvider (optsWithExtra ["A=B", "C"])).2 ≠ none ∧
    (newProvider (optsWithExtra ["A=B", "C"])).1.CustomConfigurations = [("A", "B")] ∧
    (newProvider (optsWithExtra ["A=B", "C"])).1.CustomConfigurations ≠ [] := by
  refine ⟨by decide, rfl, by decide⟩

theorem applyExtras_stops_at_first_malformed (pre : List String) :
    ∀ (p : Provider) (e : String) (rest : List String),
      (∀ x ∈ pre, (splitEq x).length = 2) → (splitEq e).length ≠ 2 →
      applyExtras p (pre ++ e :: rest)
        = ({ p with CustomConfigurations := applyWellFormed p.CustomConfigurations pre },
           some (wrongFormatMsg e)) := by
  induction pre with
  | nil =>
    intro p e rest _ he
    rcases hsp : splitEq e with _ | ⟨n, _ | ⟨v, _ | ⟨w, t⟩⟩⟩
    · simp [applyExtras, hsp, applyWellFormed]
    · simp [applyExtras, hsp, applyWellFormed]
    · exact absurd (by simp [hsp]) he
    · simp [applyExtras, hsp, applyWellFormed]
  | cons x xs ih =>
    intro p e rest hpre he
    have hx : (splitEq x).length = 2 := hpre x (List.mem_cons_self x xs)
    obtain ⟨n, v, hnv⟩ := List.length_eq_two.mp hx
    simp only [List.cons_append, applyExtras, hnv, List.append_eq]
    rw [ih _ e rest (fun y hy => hpre y (List.mem_cons_of_mem x hy)) he]
    simp [applyWellFormed, hnv]

/-- C7 amended: `newProvider` fails at the first malformed extra pair; when
an error is returned, exactly the well-formed pairs preceding the first
malformed pair have been applied to the provider's custom configurations,
and no pair at or after the first malformed one is applied. -/
theorem newProvider_stops_at_first_malformed (o : Options)
    (pre : List String) (e : String) (rest : List String)
    (hx : o.Extra = pre ++ e :: rest)
    (hpre : ∀ x ∈ pre, (splitEq x).length = 2)
    (he : (splitEq e).length ≠ 2) :
    (newProvider o).2 = some (wrongFormatMsg e) ∧
    (newProvider o).1.CustomConfigurations = applyWellFormed [] pre := by
  unfold newProvider
  rw [hx, applyExtras_stops_at_first_malformed pre _ e rest hpre he]
  exact ⟨rfl, rfl⟩

/-- Witness for the amended C7 at the extra pairs `["A=B", "C"]`. -/
theorem newProvider_stops_at_first_malformed_witness :
    (optsWithExtra ["A=B", "C"]).Extra = ["A=B"] ++ "C" :: [] ∧
    (∀ x ∈ ["A=B"], (splitEq x).length = 2) ∧
    (splitEq "C").length ≠ 2 ∧
    ((newProvider (optsWithExtra ["A=B", "C"])).2 = some (wrongFormatMsg "C") ∧
     (newProvider (optsWithExtra ["A=B", "C"])).1.CustomConfigurations
       = applyWellFormed [] ["A=B"]) :=
  ⟨rfl, by decide, by decide,
   newProvider_stops_at_first_malformed (optsWithExtra ["A=B", "C"]) ["A=B"] "C" []
     rfl (by decide) (by decide)⟩

/-- C8 counterexample: when the provisioning collaborator fails with the
message `"boom"`, `Run` returns exactly `"boom"`, which does not contain
the description of the step in which the failure occurred — the error is
propagated verbatim, not wrapped with the Step description. -/
theorem Run_error_not_wrapped_counterexample :
    (Run validOpts envProvisionFails).1 = some "boom" ∧
    ¬ occursIn "Provisioning GCP cluster" "boom" :=
  ⟨rfl, by decide⟩

/-- C8 amended: for every error reported by an external collaborator
(provisioning, state persistence, credential fetch, kubeconfig merge), the
pipeline marks the current Step failed and propagates the error verbatim,
unchanged and in particular not wrapped with the Step description. -/
theorem Run_propagates_collaborator_errors_verbatim
    (o : Options) (env : RunEnv) (prov : Provider)
    (hv : validateFlags o.Name o.Project o.CredentialsFile = none)
    (hnp : newProvider o = (prov, none)) :
    (∀ e, env.provision (newCluster o) prov = .error e →
      (Run o env).1 = some e ∧ StepEvent.failure ∈ (Run o env).2.1) ∧
    (∀ c e, env.provision (newCluster o) prov = .ok c →
      env.saveClusterState c prov = some e →
      (Run o env).1 = some e ∧ StepEvent.failure ∈ (Run o env).2.1) ∧
    (∀ c e, env.provision (newCluster o) prov = .ok c →
      env.saveClusterState c prov = none →
      env.credentials c prov = .error e →
      (Run o env).1 = some e ∧ StepEvent.failure ∈ (Run o env).2.1) ∧
    (∀ c k e, env.provision (newCluster o) prov = .ok c →
      env.saveClusterState c prov = none →
      env.credentials c prov = .ok k →
      env.appendConfig k o.KubeconfigPath = some e →
      (Run o env).1 = some e ∧ StepEvent.failure ∈ (Run o env).2.1) := by
  refine ⟨?_, ?_, ?_, ?_⟩
  · intro e hprov
    simp [Run, hv, hnp, hprov]
  · intro c e hprov hsave
    simp [Run, hv, hnp, hprov, hsave]
  · intro c e hprov hsave hcred
    simp [Run, hv, hnp, hprov, hsave, hcred]
  · intro c k e hprov hsave hcred happ
    simp [Run, hv, hnp, hprov, hsave, hcred, happ]

/-- Witness for the amended C8: the provisioning failure `"boom"` is
returned verbatim and the step is marked failed. -/
theorem Run_propagates_collaborator_errors_verbatim_witness :
    validateFlags validOpts.Name validOpts.Project validOpts.CredentialsFile = none ∧
    newProvider validOpts = ((newProvider validOpts).1, none) ∧
    envProvisionFails.provision (newCluster validOpts) (newProvider validOpts).1
      = .error "boom" ∧
    ((Run validOpts envProvisionFails).1 = some "boom" ∧
     StepEvent.failure ∈ (Run validOpts envProvisionFails).2.1) :=
  ⟨rfl, rfl, rfl,
   (Run_propagates_collaborator_errors_verbatim validOpts envProvisionFails
      (newProvider validOpts).1 rfl rfl).1 "boom" rfl⟩

theorem applyExtras_ok_iff (ex : List String) : ∀ p : Provider,
    (applyExtras p ex).2 = none ↔ ∀ x ∈ ex, (splitEq x).length = 2 := by
  induction ex with
  | nil => intro p; simp [applyExtras]
  | cons x xs ih =>
    intro p
    by_cases hx : (splitEq x).length = 2
    · obtain ⟨n, v, hnv⟩ := List.length_eq_two.mp hx
      simp [applyExtras, hnv, ih, List.forall_mem_cons, hx]
    · rcases hsp : splitEq x with _ | ⟨n, _ | ⟨v, _ | ⟨w, t⟩⟩⟩
      · simp [applyExtras, hsp, List.forall_mem_cons]
      · simp [applyExtras, hsp, List.forall_mem_cons]
      · exact absurd (by simp [hsp]) hx
      · simp [applyExtras, hsp, List.forall_mem_cons]

/-- C10: `newProvider` accepts an extra pair exactly when splitting it on
`"="` yields exactly two parts; in particular `"NAME="` is accepted and
stored with the empty value, while `"A=B=C"` is rejected as malformed. -/
theorem newProvider_wellformed_iff :
    (newProvider (optsWithExtra ["NAME="])).2 = none ∧
    (newProvider (optsWithExtra ["NAME="])).1.CustomConfigurations = [("NAME", "")] ∧
    (newProvider (optsWithExtra ["A=B=C"])).2 = some (wrongFormatMsg "A=B=C") ∧
    ∀ ex : List String,
      (newProvider (optsWithExtra ex)).2 = none ↔ ∀ x ∈ ex, (splitEq x).length = 2 :=
  ⟨rfl, rfl, rfl, fun ex => applyExtras_ok_iff ex _⟩

/-- Witness for C10: a well-formed extra list is accepted, via the general
equivalence. -/
theorem newProvider_wellformed_iff_witness :
    (newProvider (optsWithExtra ["A=B"])).2 = none :=
  (newProvider_wellformed_iff.2.2.2 ["A=B"]).mpr (by decide)

end Gcp
